import Mathlib

/-
A verification development for GuardianAI (guardian_network.py).

The source is a single Python class `GuardianAI` holding an in-memory state
(memory log, knowledge base, recursion counter, energy limit, emotion vector,
perception data) and mutating it through `monitor_resources` (resource-driven
emotion deltas, energy-limit recomputation, clamping) and `dream_state`
(randomized memory replay).  We embed the state as a structure over ℚ and
the mutating methods as pure state transformers; `random.choice` is modelled
by an arbitrary index reduced modulo the list length.

Functionality that the specification attributes to the program but that is
absent from the source file (time-based decay, the recursion-counter
increment and the persistence layer live in `process_thoughts` / a state
store that the file calls or describes but does not define) is modelled
from the specification's words; each such definition is marked
`Modelled from the spec:` in its doc comment.
-/

namespace GuardianAI

/-- Clamp a rational to the interval [0, 1]; the Python source writes
`max(0.0, min(1.0, x))` (guardian_network.py line 137). -/
def clamp01 (x : ℚ) : ℚ := max 0 (min 1 x)

/-- The fixed emotion vector of `GuardianAI.__init__` (lines 73-80):
six named scalars, no dynamic keys. -/
structure Emotions where
  happiness : ℚ
  curiosity : ℚ
  stress : ℚ
  anxiety : ℚ
  confidence : ℚ
  frustration : ℚ
deriving DecidableEq, Repr

/-- The perception record of `GuardianAI.__init__` (lines 83-89). -/
structure Perception where
  visual_activity : Bool
  audio_detected : Bool
  cpu_load : ℚ
  ram_usage : ℚ
  battery_level : ℚ
deriving DecidableEq, Repr

/-- One sample of host metrics as read at the top of `monitor_resources`
(lines 113-115): ram percent, cpu percent, battery percent (100 when no
battery is present). -/
structure ResourceSample where
  ram : ℚ
  cpu : ℚ
  battery : ℚ
deriving DecidableEq, Repr

/-- The mutable state of a `GuardianAI` instance (lines 66-89).  The
`reflections` field does not exist in the source: the specification posits a
reflections log written on each dream trigger, and we carry the field so that
claims about that log are statable; no operation translated from the source
file ever touches it. -/
structure GuardianState where
  memory : List String
  knowledge_base : List (String × String)
  recursion_count : ℕ
  energy_limit : ℚ
  emotions : Emotions
  perception : Perception
  reflections : List (ℚ × ℚ)
deriving DecidableEq, Repr

/-- The initial state built by `GuardianAI.__init__` (lines 66-89). -/
def initState : GuardianState :=
  { memory := []
    knowledge_base := []
    recursion_count := 0
    energy_limit := 1
    emotions :=
      { happiness := 1/2
        curiosity := 3/5
        stress := 1/5
        anxiety := 1/10
        confidence := 1/2
        frustration := 0 }
    perception :=
      { visual_activity := false
        audio_detected := false
        cpu_load := 0
        ram_usage := 0
        battery_level := 100 }
    reflections := [] }

/-- Clamp every emotion value to [0, 1]: the loop at lines 136-137 of
`monitor_resources`. -/
def clampEmotions (e : Emotions) : Emotions :=
  { happiness := clamp01 e.happiness
    curiosity := clamp01 e.curiosity
    stress := clamp01 e.stress
    anxiety := clamp01 e.anxiety
    confidence := clamp01 e.confidence
    frustration := clamp01 e.frustration }

/-- `GuardianAI.monitor_resources` (lines 111-137) as a pure state
transformer over the sampled metrics: store the sample into perception,
apply the three-way branch (overload, low battery, default recovery) to the
energy limit and the emotion deltas, then clamp every emotion to [0, 1]. -/
def monitor_resources (s : GuardianState) (r : ResourceSample) : GuardianState :=
  let s1 : GuardianState :=
    { s with perception :=
        { s.perception with
            cpu_load := r.cpu
            ram_usage := r.ram
            battery_level := r.battery } }
  let s2 : GuardianState :=
    if r.ram > 80 ∨ r.cpu > 80 then
      { s1 with
          energy_limit := 1/2
          emotions :=
            { s1.emotions with
                stress := s1.emotions.stress + 1/10
                happiness := s1.emotions.happiness - 1/10 } }
    else if r.battery < 20 then
      { s1 with
          energy_limit := 3/10
          emotions :=
            { s1.emotions with
                anxiety := s1.emotions.anxiety + 1/10
                confidence := s1.emotions.confidence - 1/10 } }
    else
      { s1 with
          energy_limit := min 1 (s1.energy_limit * (11/10))
          emotions :=
            { s1.emotions with
                happiness := s1.emotions.happiness + 1/20 } }
  { s2 with emotions := clampEmotions s2.emotions }

/-- Assignment `d[k] = v` on a Python dict, over an association list: when
the key is present its first entry is replaced in place, otherwise the pair
is appended at the end; keys stay unique and last write wins. -/
def kbInsert : List (String × String) → String → String → List (String × String)
  | [], k, v => [(k, v)]
  | p :: t, k, v => if p.1 = k then (k, v) :: t else p :: kbInsert t k v

/-- Lookup `d[k]` on the association-list model of a Python dict. -/
def kbFind : List (String × String) → String → Option String
  | [], _ => none
  | p :: t, k => if p.1 = k then some p.2 else kbFind t k

/-- Number of entries carrying the key `k`. -/
def countKey : List (String × String) → String → ℕ
  | [], _ => 0
  | p :: t, k => (if p.1 = k then 1 else 0) + countKey t k

/-- The fixed marker appended to a replayed memory entry
(guardian_network.py line 175). -/
def dreamMarker : String := " - processed in dream-state"

/-- `GuardianAI.dream_state` (lines 170-177): no-op on empty memory,
otherwise pick one memory entry (the random choice is modelled by the index
`i` reduced modulo the length), append the marker to it, append the derived
entry to memory and store it in the knowledge base under the key
`dream_<recursion_count>`. -/
def dream_state (s : GuardianState) (i : ℕ) : GuardianState :=
  if s.memory = [] then s
  else
    let dream_fragment := s.memory.getD (i % s.memory.length) ""
    let altered_fragment := dream_fragment ++ dreamMarker
    { s with
        memory := s.memory ++ [altered_fragment]
        knowledge_base :=
          kbInsert s.knowledge_base ("dream_" ++ toString s.recursion_count)
            altered_fragment }

/-- Modelled from the spec: the decay rate (≈ 0.015 per second) of the
emotion decay that the spec places in the periodic update cycle; the decay
itself would live in `process_thoughts`, which `run_background_process`
(line 142) and `respond` (line 190) call but which is not defined in the
source file. -/
def decay_rate : ℚ := 3/200

/-- Modelled from the spec: one decay step on a single emotion value —
the value decreases by `decay_rate * elapsed_seconds`, floored at 0 so that
decay alone never drives a value negative (spec §4.2 and §8). -/
def decay_step (v t : ℚ) : ℚ := max 0 (v - decay_rate * t)

/-- Modelled from the spec: the recursion-counter increment with wraparound
at 100 back to 1 (spec §4.3 and Scenario F); the increment would live in
`process_thoughts`, which is called from `run_background_process` and
`respond` but is not defined in the source file. -/
def bump_recursion (n : ℕ) : ℕ := if 100 ≤ n then 1 else n + 1

/-- Modelled from the spec: the durable snapshot of §3 (PersistedState)
restricted to the state fields the source actually holds — the last 100
memory entries, the full knowledge map and the recursion counter. -/
structure PersistedState where
  memory : List String
  knowledge_base : List (String × String)
  recursion_count : ℕ
deriving DecidableEq, Repr

/-- Modelled from the spec: `StateStore.save` (§4.6) — truncate the memory
log to its last 100 entries, keep the knowledge map whole and the recursion
counter as is.  No persistence code exists in the source file. -/
def save (s : GuardianState) : PersistedState :=
  { memory := s.memory.drop (s.memory.length - 100)
    knowledge_base := s.knowledge_base
    recursion_count := s.recursion_count }

/-- Modelled from the spec: `StateStore.load` (§4.6) — a missing or
unreadable state file (`none`) is non-fatal and yields the empty defaults;
otherwise the persisted fields are restored over the defaults. -/
def load (p : Option PersistedState) : GuardianState :=
  match p with
  | none => initState
  | some q =>
      { initState with
          memory := q.memory
          knowledge_base := q.knowledge_base
          recursion_count := q.recursion_count }

/-- The clamp never goes below 0. -/
theorem clamp01_nonneg (x : ℚ) : 0 ≤ clamp01 x := le_max_left 0 (min 1 x)

/-- The clamp never goes above 1. -/
theorem clamp01_le_one (x : ℚ) : clamp01 x ≤ 1 :=
  max_le (by norm_num) (min_le_left 1 x)

/-- C1: after `monitor_resources` — the source's full update cycle of
resource-driven deltas followed by the clamp loop — every one of the six
emotion values lies in [0, 1], for every input sample and every prior
state. -/
theorem emotions_clamped_after_monitor (s : GuardianState) (r : ResourceSample) :
    (0 ≤ (monitor_resources s r).emotions.happiness ∧
        (monitor_resources s r).emotions.happiness ≤ 1) ∧
    (0 ≤ (monitor_resources s r).emotions.curiosity ∧
        (monitor_resources s r).emotions.curiosity ≤ 1) ∧
    (0 ≤ (monitor_resources s r).emotions.stress ∧
        (monitor_resources s r).emotions.stress ≤ 1) ∧
    (0 ≤ (monitor_resources s r).emotions.anxiety ∧
        (monitor_resources s r).emotions.anxiety ≤ 1) ∧
    (0 ≤ (monitor_resources s r).emotions.confidence ∧
        (monitor_resources s r).emotions.confidence ≤ 1) ∧
    (0 ≤ (monitor_resources s r).emotions.frustration ∧
        (monitor_resources s r).emotions.frustration ≤ 1) := by
  unfold monitor_resources
  split
  · exact ⟨⟨clamp01_nonneg _, clamp01_le_one _⟩, ⟨clamp01_nonneg _, clamp01_le_one _⟩,
      ⟨clamp01_nonneg _, clamp01_le_one _⟩, ⟨clamp01_nonneg _, clamp01_le_one _⟩,
      ⟨clamp01_nonneg _, clamp01_le_one _⟩, ⟨clamp01_nonneg _, clamp01_le_one _⟩⟩
  · split
    · exact ⟨⟨clamp01_nonneg _, clamp01_le_one _⟩, ⟨clamp01_nonneg _, clamp01_le_one _⟩,
        ⟨clamp01_nonneg _, clamp01_le_one _⟩, ⟨clamp01_nonneg _, clamp01_le_one _⟩,
        ⟨clamp01_nonneg _, clamp01_le_one _⟩, ⟨clamp01_nonneg _, clamp01_le_one _⟩⟩
    · exact ⟨⟨clamp01_nonneg _, clamp01_le_one _⟩, ⟨clamp01_nonneg _, clamp01_le_one _⟩,
        ⟨clamp01_nonneg _, clamp01_le_one _⟩, ⟨clamp01_nonneg _, clamp01_le_one _⟩,
        ⟨clamp01_nonneg _, clamp01_le_one _⟩, ⟨clamp01_nonneg _, clamp01_le_one _⟩⟩

/-- C2: the three resource-driven delta branches of `monitor_resources` are
evaluated in priority order and are mutually exclusive: under overload
(ram > 80 or cpu > 80) stress gains 0.1 and happiness loses 0.1 and no other
delta applies; otherwise under low battery (< 20) anxiety gains 0.1 and
confidence loses 0.1 and no other delta applies; otherwise happiness gains
the small recovery step 0.05 and no other delta applies — each value then
being clamped. -/
theorem monitor_resources_branch_deltas (s : GuardianState) (r : ResourceSample) :
    ((r.ram > 80 ∨ r.cpu > 80) →
       (monitor_resources s r).emotions.stress = clamp01 (s.emotions.stress + 1/10) ∧
       (monitor_resources s r).emotions.happiness = clamp01 (s.emotions.happiness - 1/10) ∧
       (monitor_resources s r).emotions.anxiety = clamp01 s.emotions.anxiety ∧
       (monitor_resources s r).emotions.confidence = clamp01 s.emotions.confidence ∧
       (monitor_resources s r).emotions.curiosity = clamp01 s.emotions.curiosity ∧
       (monitor_resources s r).emotions.frustration = clamp01 s.emotions.frustration) ∧
    (¬(r.ram > 80 ∨ r.cpu > 80) → r.battery < 20 →
       (monitor_resources s r).emotions.anxiety = clamp01 (s.emotions.anxiety + 1/10) ∧
       (monitor_resources s r).emotions.confidence = clamp01 (s.emotions.confidence - 1/10) ∧
       (monitor_resources s r).emotions.stress = clamp01 s.emotions.stress ∧
       (monitor_resources s r).emotions.happiness = clamp01 s.emotions.happiness ∧
       (monitor_resources s r).emotions.curiosity = clamp01 s.emotions.curiosity ∧
       (monitor_resources s r).emotions.frustration = clamp01 s.emotions.frustration) ∧
    (¬(r.ram > 80 ∨ r.cpu > 80) → ¬(r.battery < 20) →
       (monitor_resources s r).emotions.happiness = clamp01 (s.emotions.happiness + 1/20) ∧
       (monitor_resources s r).emotions.stress = clamp01 s.emotions.stress ∧
       (monitor_resources s r).emotions.anxiety = clamp01 s.emotions.anxiety ∧
       (monitor_resources s r).emotions.confidence = clamp01 s.emotions.confidence ∧
       (monitor_resources s r).emotions.curiosity = clamp01 s.emotions.curiosity ∧
       (monitor_resources s r).emotions.frustration = clamp01 s.emotions.frustration) := by
  refine ⟨fun h1 => ?_, fun h1 h2 => ?_, fun h1 h2 => ?_⟩
  · simp [monitor_resources, clampEmotions, h1]
  · simp [monitor_resources, clampEmotions, h1, h2]
  · simp [monitor_resources, clampEmotions, h1, h2]

/-- Witness for C2: at concrete samples, each of the three branches of the
theorem fires as stated (overload at cpu = 90, low battery at battery = 15,
recovery at cpu = ram = 10 and battery = 100). -/
theorem monitor_resources_branch_deltas_witness :
    (monitor_resources initState ⟨50, 90, 100⟩).emotions.stress
        = clamp01 (initState.emotions.stress + 1/10) ∧
    (monitor_resources initState ⟨10, 10, 15⟩).emotions.anxiety
        = clamp01 (initState.emotions.anxiety + 1/10) ∧
    (monitor_resources initState ⟨10, 10, 100⟩).emotions.happiness
        = clamp01 (initState.emotions.happiness + 1/20) :=
  ⟨((monitor_resources_branch_deltas initState ⟨50, 90, 100⟩).1
      (by norm_num)).1,
   (((monitor_resources_branch_deltas initState ⟨10, 10, 15⟩).2.1
      (by norm_num) (by norm_num))).1,
   (((monitor_resources_branch_deltas initState ⟨10, 10, 100⟩).2.2
      (by norm_num) (by norm_num))).1⟩

/-- C3: the energy limit follows the same three-way branch as the emotion
deltas — overload sets it to 0.5, low battery to 0.3, otherwise it becomes
`min 1 (previous * 1.1)`; starting in [0, 1] it stays in [0, 1]; and with
cpu = ram = 10, battery = 100 and prior limit 0.9 the new limit is 0.99. -/
theorem energy_limit_spec (s : GuardianState) (r : ResourceSample) :
    ((r.ram > 80 ∨ r.cpu > 80) → (monitor_resources s r).energy_limit = 1/2) ∧
    (¬(r.ram > 80 ∨ r.cpu > 80) → r.battery < 20 →
        (monitor_resources s r).energy_limit = 3/10) ∧
    (¬(r.ram > 80 ∨ r.cpu > 80) → ¬(r.battery < 20) →
        (monitor_resources s r).energy_limit = min 1 (s.energy_limit * (11/10))) ∧
    (0 ≤ s.energy_limit → s.energy_limit ≤ 1 →
        0 ≤ (monitor_resources s r).energy_limit ∧
        (monitor_resources s r).energy_limit ≤ 1) ∧
    (monitor_resources { s with energy_limit := 9/10 } ⟨10, 10, 100⟩).energy_limit
        = 99/100 := by
  refine ⟨fun h1 => ?_, fun h1 h2 => ?_, fun h1 h2 => ?_, fun h0 h1 => ?_, ?_⟩
  · simp [monitor_resources, h1]
  · simp [monitor_resources, h1, h2]
  · simp [monitor_resources, h1, h2]
  · unfold monitor_resources
    split
    · norm_num
    · split
      · norm_num
      · constructor
        · simp only
          positivity
        · simp only
          exact min_le_left 1 _
  · norm_num [monitor_resources]

/-- Witness for C3: at the concrete recovery-branch sample of Scenario C the
theorem yields all five conjuncts, in particular the 0.99 value and the
[0, 1] bounds for the initial limit 1. -/
theorem energy_limit_spec_witness :
    (monitor_resources { initState with energy_limit := 9/10 } ⟨10, 10, 100⟩).energy_limit
        = 99/100 ∧
    (0 ≤ (monitor_resources initState ⟨10, 10, 100⟩).energy_limit ∧
        (monitor_resources initState ⟨10, 10, 100⟩).energy_limit ≤ 1) :=
  ⟨(energy_limit_spec initState ⟨10, 10, 100⟩).2.2.2.2,
   (energy_limit_spec initState ⟨10, 10, 100⟩).2.2.2.1 (by norm_num [initState])
     (by norm_num [initState])⟩

/-- C4: one decay step (modelled from the spec, no decay exists in the
source file) decreases a value by `decay_rate * elapsed_seconds`, floored at
zero: for 0 ≤ v and 0 ≤ t the decayed value v' satisfies 0 ≤ v' ≤ v, and
when the full subtraction stays nonnegative it is exactly
v - decay_rate * t. -/
theorem decay_step_monotone (v t : ℚ) (hv : 0 ≤ v) (ht : 0 ≤ t) :
    0 ≤ decay_step v t ∧ decay_step v t ≤ v ∧
    (decay_rate * t ≤ v → decay_step v t = v - decay_rate * t) := by
  have hrt : 0 ≤ decay_rate * t := by
    have : (0:ℚ) ≤ decay_rate := by norm_num [decay_rate]
    exact mul_nonneg this ht
  refine ⟨le_max_left 0 _, max_le hv (by linarith), fun h => ?_⟩
  unfold decay_step
  exact max_eq_right (by linarith)

/-- Witness for C4: the decay theorem applied at v = 1/2, t = 10, where the
decayed value is 0.35. -/
theorem decay_step_monotone_witness :
    0 ≤ decay_step (1/2) 10 ∧ decay_step (1/2) 10 ≤ 1/2 ∧
    (decay_rate * 10 ≤ 1/2 → decay_step (1/2) 10 = 1/2 - decay_rate * 10) :=
  decay_step_monotone (1/2) 10 (by norm_num) (by norm_num)

/-- C6: a dream trigger on an empty memory log is a no-op that returns
without error — the whole state, every field included, is unchanged. -/
theorem dream_state_empty_noop (s : GuardianState) (i : ℕ) (h : s.memory = []) :
    dream_state s i = s := by
  simp [dream_state, h]

/-- Witness for C6: the initial state has empty memory and a dream trigger
leaves it exactly as it was. -/
theorem dream_state_empty_noop_witness :
    initState.memory = [] ∧ dream_state initState 0 = initState :=
  ⟨rfl, dream_state_empty_noop initState 0 rfl⟩

/-- A state whose memory log holds the single entry of Scenario E. -/
def factAState : GuardianState := { initState with memory := ["fact A"] }

/-- Counterexample to C5: on the forced dream trigger from
MemoryLog = ["fact A"] the derived entry is appended exactly as claimed, but
no reflection record is appended anywhere — the reflections log stays empty,
because `dream_state` only touches memory and the knowledge base. -/
theorem dream_no_reflection_cex :
    (dream_state factAState 0).memory
        = ["fact A", "fact A - processed in dream-state"] ∧
    factAState.reflections.length = 0 ∧
    (dream_state factAState 0).reflections.length = 0 := by
  decide

/-- C5 as amended: on a dream trigger with non-empty MemoryLog one existing
entry (the choice modelled by the index `i mod length`) is selected, the
entry derived by appending the fixed marker is appended to MemoryLog, and no
reflection record is appended — the source maintains no reflections log. -/
theorem dream_append_no_reflection (s : GuardianState) (i : ℕ) (h : s.memory ≠ []) :
    (dream_state s i).memory
        = s.memory ++ [s.memory.getD (i % s.memory.length) "" ++ dreamMarker] ∧
    (dream_state s i).reflections = s.reflections := by
  simp [dream_state, h]

/-- Witness for the amended C5 at the Scenario E state. -/
theorem dream_append_no_reflection_witness :
    (dream_state factAState 0).memory
        = factAState.memory
            ++ [factAState.memory.getD (0 % factAState.memory.length) "" ++ dreamMarker] ∧
    (dream_state factAState 0).reflections = factAState.reflections :=
  dream_append_no_reflection factAState 0 (by decide)

/-- C7: load after save restores the knowledge map and the recursion counter
exactly and the memory log up to the truncation to its last 100 entries
(exactly when the log held at most 100 entries), and loading a missing state
file yields the empty initial defaults. -/
theorem save_load_roundtrip (s : GuardianState) :
    (load (some (save s))).knowledge_base = s.knowledge_base ∧
    (load (some (save s))).recursion_count = s.recursion_count ∧
    (load (some (save s))).memory = s.memory.drop (s.memory.length - 100) ∧
    (s.memory.length ≤ 100 → (load (some (save s))).memory = s.memory) ∧
    load none = initState := by
  refine ⟨rfl, rfl, rfl, fun h => ?_, rfl⟩
  simp [load, save, Nat.sub_eq_zero_of_le h]

/-- Witness for C7: the initial state's empty memory is within the bound and
round-trips unchanged. -/
theorem save_load_roundtrip_witness :
    initState.memory.length ≤ 100 ∧
    (load (some (save initState))).memory = initState.memory := by
  have h : initState.memory.length ≤ 100 := by simp [initState]
  exact ⟨h, (save_load_roundtrip initState).2.2.2.1 h⟩

/-- A counter below the wrap point stays at most 100 after one increment. -/
theorem bump_recursion_le (n : ℕ) (h : n ≤ 100) : bump_recursion n ≤ 100 := by
  unfold bump_recursion
  split <;> omega

/-- C8: each iteration increments the counter by one while it is below 100,
the increment at 100 wraps back to 1, and along the whole loop from the
initial counter 0 the counter stays at most 100 and never reaches 101. -/
theorem recursion_counter_wrap :
    (∀ n : ℕ, n < 100 → bump_recursion n = n + 1) ∧
    bump_recursion 100 = 1 ∧
    (∀ k : ℕ, bump_recursion^[k] 0 ≤ 100 ∧ bump_recursion^[k] 0 ≠ 101) := by
  refine ⟨fun n hn => ?_, by norm_num [bump_recursion], fun k => ?_⟩
  · unfold bump_recursion
    split <;> omega
  · have h : bump_recursion^[k] 0 ≤ 100 := by
      induction k with
      | zero => simp
      | succ m ih =>
          rw [Function.iterate_succ_apply']
          exact bump_recursion_le _ ih
    exact ⟨h, by omega⟩

/-- Witness for C8 at concrete counters: 99 increments to 100, 100 wraps to
1, and after 200 loop iterations the counter is still not 101. -/
theorem recursion_counter_wrap_witness :
    bump_recursion 99 = 100 ∧ bump_recursion 100 = 1 ∧
    bump_recursion^[200] 0 ≠ 101 :=
  ⟨recursion_counter_wrap.1 99 (by norm_num), recursion_counter_wrap.2.1,
   (recursion_counter_wrap.2.2 200).2⟩

/-- A state whose memory log already holds 1000 entries. -/
def bigState : GuardianState := { initState with memory := List.replicate 1000 "m" }

/-- The 1000-entry memory log has length 1000. -/
theorem bigState_memory_length : bigState.memory.length = 1000 := by
  have hm : bigState.memory = List.replicate 1000 "m" := rfl
  rw [hm, List.length_replicate]

/-- The 1000-entry memory log is not empty. -/
theorem bigState_memory_ne_nil : bigState.memory ≠ [] := by
  intro hc
  have h := bigState_memory_length
  rw [hc] at h
  simp at h

/-- Counterexample to C9: from a memory log of exactly 1000 entries a single
dream cycle produces 1001 in-memory entries — the source never truncates the
in-memory log, so it is not bounded by N = 1000. -/
theorem memory_exceeds_thousand :
    bigState.memory.length = 1000 ∧
    (dream_state bigState 0).memory.length = 1001 := by
  refine ⟨bigState_memory_length, ?_⟩
  have hmem : (dream_state bigState 0).memory
      = bigState.memory
          ++ [bigState.memory.getD (0 % bigState.memory.length) "" ++ dreamMarker] := by
    simp [dream_state, bigState_memory_ne_nil]
  rw [hmem, List.length_append, bigState_memory_length]
  rfl

/-- C9 as amended: the in-memory log is append-only and unbounded (insertion
order preserved, each dream cycle appending the derived entry at the end),
while the persisted slice is the tail of the log and never exceeds 100
entries regardless of the in-memory length. -/
theorem memory_append_and_persist_bound (s : GuardianState) (i : ℕ) :
    (save s).memory.length ≤ 100 ∧
    List.IsSuffix (save s).memory s.memory ∧
    (s.memory ≠ [] →
      (dream_state s i).memory
        = s.memory ++ [s.memory.getD (i % s.memory.length) "" ++ dreamMarker]) := by
  refine ⟨?_, ?_, fun h => ?_⟩
  · simp only [save, List.length_drop]
    omega
  · exact List.drop_suffix _ _
  · simp [dream_state, h]

/-- Witness for C9 as amended, at the 1000-entry state: the persisted slice
is within the bound and the dream cycle appends in order. -/
theorem memory_append_and_persist_bound_witness :
    (save bigState).memory.length ≤ 100 ∧
    (dream_state bigState 0).memory
      = bigState.memory
          ++ [bigState.memory.getD (0 % bigState.memory.length) "" ++ dreamMarker] :=
  ⟨(memory_append_and_persist_bound bigState 0).1,
   (memory_append_and_persist_bound bigState 0).2.2 bigState_memory_ne_nil⟩

/-- `dream_state` never changes the recursion counter. -/
theorem dream_state_recursion (s : GuardianState) (i : ℕ) :
    (dream_state s i).recursion_count = s.recursion_count := by
  unfold dream_state
  split <;> rfl

/-- On non-empty memory, `dream_state` stores the derived fragment in the
knowledge base under the key derived from the recursion counter. -/
theorem dream_state_kb (s : GuardianState) (i : ℕ) (h : s.memory ≠ []) :
    (dream_state s i).knowledge_base
      = kbInsert s.knowledge_base ("dream_" ++ toString s.recursion_count)
          (s.memory.getD (i % s.memory.length) "" ++ dreamMarker) := by
  simp [dream_state, h]

/-- A dream cycle keeps the memory log non-empty. -/
theorem dream_state_memory_ne_nil (s : GuardianState) (i : ℕ) (h : s.memory ≠ []) :
    (dream_state s i).memory ≠ [] := by
  simp [dream_state, h]

/-- Looking up the key just inserted yields the inserted value. -/
theorem kbFind_kbInsert_self (kb : List (String × String)) (k v : String) :
    kbFind (kbInsert kb k v) k = some v := by
  induction kb with
  | nil => simp [kbInsert, kbFind]
  | cons p t ih =>
      by_cases hp : p.1 = k
      · simp [kbInsert, hp, kbFind]
      · simp [kbInsert, hp, kbFind, ih]

/-- Inserting a key leaves exactly one entry for it when it was absent and
does not change the entry count for it when it was present. -/
theorem countKey_kbInsert (kb : List (String × String)) (k v : String) :
    countKey (kbInsert kb k v) k
      = if countKey kb k = 0 then 1 else countKey kb k := by
  induction kb with
  | nil => simp [kbInsert, countKey]
  | cons p t ih =>
      by_cases hp : p.1 = k
      · simp [kbInsert, hp, countKey]
      · simp only [kbInsert, hp, if_false, countKey, if_neg hp, Nat.zero_add, ih]

/-- C10: a dream cycle on non-empty memory writes the derived fragment under
the key `dream_<recursion counter>`, leaves the counter itself unchanged, a
second dream cycle (counter still unchanged) overwrites that same key with
its own fragment (last write wins), and when the key was absent the map
holds exactly one entry for it even after the two cycles. -/
theorem dream_knowledge_key_last_write (s : GuardianState) (i j : ℕ)
    (h : s.memory ≠ []) :
    (dream_state s i).recursion_count = s.recursion_count ∧
    kbFind (dream_state s i).knowledge_base ("dream_" ++ toString s.recursion_count)
      = some (s.memory.getD (i % s.memory.length) "" ++ dreamMarker) ∧
    kbFind (dream_state (dream_state s i) j).knowledge_base
        ("dream_" ++ toString s.recursion_count)
      = some ((dream_state s i).memory.getD
          (j % (dream_state s i).memory.length) "" ++ dreamMarker) ∧
    (countKey s.knowledge_base ("dream_" ++ toString s.recursion_count) = 0 →
      countKey (dream_state (dream_state s i) j).knowledge_base
        ("dream_" ++ toString s.recursion_count) = 1) := by
  have h2 := dream_state_memory_ne_nil s i h
  refine ⟨dream_state_recursion s i, ?_, ?_, fun h0 => ?_⟩
  · rw [dream_state_kb s i h]
    exact kbFind_kbInsert_self _ _ _
  · rw [dream_state_kb _ j h2, dream_state_recursion s i]
    exact kbFind_kbInsert_self _ _ _
  · rw [dream_state_kb _ j h2, dream_state_recursion s i, dream_state_kb s i h,
      countKey_kbInsert, countKey_kbInsert]
    simp [h0]

/-- Witness for C10 at the Scenario E state (empty knowledge base, one
memory entry): the key is written and after two dream cycles the map holds
exactly one entry for it. -/
theorem dream_knowledge_key_last_write_witness :
    kbFind (dream_state factAState 0).knowledge_base
        ("dream_" ++ toString factAState.recursion_count)
      = some (factAState.memory.getD (0 % factAState.memory.length) "" ++ dreamMarker) ∧
    countKey (dream_state (dream_state factAState 0) 0).knowledge_base
        ("dream_" ++ toString factAState.recursion_count) = 1 :=
  ⟨(dream_knowledge_key_last_write factAState 0 0 (by decide)).2.1,
   (dream_knowledge_key_last_write factAState 0 0 (by decide)).2.2.2 (by decide)⟩

end GuardianAI
